import Mathlib

/-!
Shallow embedding of the Advertisement service in `src/app.py`.

The service is a CRUD + search HTTP API over a single `Advertisement`
table.  The relational store is modelled as a list of rows together with
the auto-increment counter the persistence layer uses to assign primary
keys.  Each route handler of `app.py` becomes a pure function from a
store (plus the request data, and a clock value for `created_at`) to an
HTTP response carrying the status code, the optional record body, and
the resulting store.  SQL floats are modelled as rationals and the
`created_at` timestamp as a natural number.
-/

/-- Row of the `advertisement` table: fields of `AdvertisementBase`
(`title`, `description`, `price`, `author`, src/app.py lines 6-10) plus
the table-only columns `id` and `created_at` (lines 12-14). -/
structure Advertisement where
  id : Nat
  title : String
  description : Option String
  price : ℚ
  author : String
  created_at : Nat
deriving DecidableEq

/-- Validated body of `POST /advertisement` (`AdvertisementCreate`,
src/app.py lines 16-17): exactly the four `AdvertisementBase` fields,
with `description` optional.  It has no `id` and no `created_at`
field, so a client can supply neither. -/
structure AdvertisementCreate where
  title : String
  description : Option String
  price : ℚ
  author : String
deriving DecidableEq

/-- Body of `PATCH /advertisement/{ad_id}` (`AdvertisementUpdate`,
src/app.py lines 23-27): every field is optional and defaults to unset.
The outer `Option` records whether the field was explicitly present in
the request (the `exclude_unset=True` notion of set-ness); a present
value is a well-typed value for the column, nullable only for
`description`. -/
structure AdvertisementUpdate where
  title : Option String
  description : Option (Option String)
  price : Option ℚ
  author : Option String
deriving DecidableEq

/-- The relational store behind `engine` (src/app.py lines 30-31): the
rows of the single table plus the auto-increment counter from which the
primary key of the next inserted row is taken. -/
structure Store where
  ads : List Advertisement
  nextId : Nat
deriving DecidableEq

/-- HTTP response of a single-record endpoint: status code, optional
record body (`none` for 404 and for the empty 204 body), and the store
after the request. -/
structure Resp where
  status : Nat
  body : Option Advertisement
  store : Store
deriving DecidableEq

/-- JSON scalar appearing as a field value of a request body. -/
inductive JsonValue
  | null
  | str (s : String)
  | num (x : ℚ)
deriving DecidableEq

/-- Raw JSON body of `POST /advertisement` before validation: each of
the four recognised fields is either absent or a JSON scalar. -/
structure RawCreatePayload where
  title : Option JsonValue
  description : Option JsonValue
  price : Option JsonValue
  author : Option JsonValue
deriving DecidableEq

/-- Numeric value of a list of decimal digit characters. -/
def digitsVal (l : List Char) : Nat :=
  l.foldl (fun n c => 10 * n + (c.toNat - 48)) 0

/-- Decimal numeral (digits with at most one dot, at least one digit)
read as a rational.  This is the core of Python's `float()` conversion;
exponents, infinities, NaN and surrounding whitespace are not modelled. -/
def parseDecimalCore (l : List Char) : Option ℚ :=
  let ip := l.takeWhile (fun c => c != '.')
  let rest := l.dropWhile (fun c => c != '.')
  match rest with
  | [] =>
    if !ip.isEmpty && ip.all Char.isDigit then some ((digitsVal ip : ℚ)) else none
  | _ :: fp =>
    if (!ip.isEmpty || !fp.isEmpty) && ip.all Char.isDigit && fp.all Char.isDigit then
      some ((digitsVal ip : ℚ) + (digitsVal fp : ℚ) / (10 : ℚ) ^ fp.length)
    else none

/-- Python `float()` on a string, as invoked by Pydantic's lax `float`
validation: an optional sign followed by a decimal numeral. -/
def parseDecimal? (s : String) : Option ℚ :=
  match s.toList with
  | '-' :: rest => (parseDecimalCore rest).map (fun x => -x)
  | '+' :: rest => parseDecimalCore rest
  | l => parseDecimalCore l

/-- Lax validation of the `price : float` field: a JSON number passes
through, a numeric JSON string is coerced via `float()`, and null or a
non-numeric string is rejected. -/
def coercePrice : JsonValue → Option ℚ
  | .null => none
  | .str s => parseDecimal? s
  | .num x => some x

/-- Validation of the create body against `AdvertisementCreate`
(src/app.py lines 6-10 and 16-17): `title` and `author` must be present
strings, `price` a present number or numeric string (Pydantic's lax
coercion), `description` may be absent, null, or a string.  Returns
`none` when validation fails (HTTP 422). -/
def validateCreate (p : RawCreatePayload) : Option AdvertisementCreate :=
  match p.title, p.price, p.author with
  | some (.str t), some pv, some (.str a) =>
    match coercePrice pv, p.description with
    | some x, none => some ⟨t, none, x, a⟩
    | some x, some .null => some ⟨t, none, x, a⟩
    | some x, some (.str d) => some ⟨t, some d, x, a⟩
    | _, _ => none
  | _, _, _ => none

/-- Primary-key lookup `session.get(Advertisement, ad_id)`: the row of
the store whose `id` equals `ad_id`, if any. -/
def sessionGet (s : Store) (adId : Nat) : Option Advertisement :=
  s.ads.find? (fun a => a.id == adId)

/-- Handler of `POST /advertisement` (`create_ad`, src/app.py lines
37-43): on a valid body, build the row via `from_orm` (which copies the
four base fields), let the store assign the primary key and stamp
`created_at` with the current time `now`, insert, and answer 201 with
the stored row; on an invalid body FastAPI answers 422 before the
handler runs, leaving the store untouched. -/
def create_ad (s : Store) (now : Nat) (p : RawCreatePayload) : Resp :=
  match validateCreate p with
  | none => ⟨422, none, s⟩
  | some ad =>
    let db_ad : Advertisement := ⟨s.nextId, ad.title, ad.description, ad.price, ad.author, now⟩
    ⟨201, some db_ad, ⟨s.ads ++ [db_ad], s.nextId + 1⟩⟩

/-- The `setattr` loop of `update_ad` (src/app.py lines 50-51): for each
key present in `ad_update.dict(exclude_unset=True)` assign its value;
fields absent from the payload, and the columns `id` and `created_at`
that `AdvertisementUpdate` does not have, keep their prior value. -/
def applyUpdate (a : Advertisement) (u : AdvertisementUpdate) : Advertisement :=
  { a with
    title := u.title.getD a.title
    description := u.description.getD a.description
    price := u.price.getD a.price
    author := u.author.getD a.author }

/-- Handler of `PATCH /advertisement/{ad_id}` (`update_ad`, src/app.py
lines 45-55): 404 if the id is not in the store, otherwise apply the
explicitly-set fields to the found row, commit, and answer 200 with the
updated row. -/
def update_ad (s : Store) (adId : Nat) (u : AdvertisementUpdate) : Resp :=
  match sessionGet s adId with
  | none => ⟨404, none, s⟩
  | some ad =>
    let ad' := applyUpdate ad u
    ⟨200, some ad', ⟨s.ads.map (fun b => if b.id == adId then ad' else b), s.nextId⟩⟩

/-- Handler of `DELETE /advertisement/{ad_id}` (`delete_ad`, src/app.py
lines 57-63): 404 if the id is not in the store, otherwise remove the
row with that primary key and answer 204 with no content. -/
def delete_ad (s : Store) (adId : Nat) : Resp :=
  match sessionGet s adId with
  | none => ⟨404, none, s⟩
  | some _ => ⟨204, none, ⟨s.ads.filter (fun b => b.id != adId), s.nextId⟩⟩

/-- Handler of `GET /advertisement/{ad_id}` (`get_ad`, src/app.py lines
65-70): 404 if the id is not in the store, otherwise 200 with the row. -/
def get_ad (s : Store) (adId : Nat) : Resp :=
  match sessionGet s adId with
  | none => ⟨404, none, s⟩
  | some ad => ⟨200, some ad, s⟩

/-- ASCII lower-casing: SQLite's default `LIKE` folds case only for the
26 ASCII letters. -/
def asciiLower (c : Char) : Char :=
  if 'A' ≤ c ∧ c ≤ 'Z' then Char.ofNat (c.toNat + 32) else c

/-- SQLite `LIKE` pattern matching over character lists: `%` matches any
(possibly empty) run, `_` matches any single character, and ordinary
characters compare ASCII case-insensitively.  The extra fuel argument
only makes the recursion structural: every step shortens the pattern or
the string, so the fuel `likeMatch` supplies is never exhausted. -/
def likeMatchFuel : Nat → List Char → List Char → Bool
  | 0, _, _ => false
  | _ + 1, [], s => s.isEmpty
  | fuel + 1, '%' :: ps, [] => likeMatchFuel fuel ps []
  | fuel + 1, '%' :: ps, c :: cs =>
    likeMatchFuel fuel ps (c :: cs) || likeMatchFuel fuel ('%' :: ps) cs
  | _ + 1, _ :: _, [] => false
  | fuel + 1, p :: ps, c :: cs =>
    (p == '_' || asciiLower p == asciiLower c) && likeMatchFuel fuel ps cs

/-- SQLite `pattern LIKE` applied to a string, with sufficient fuel. -/
def likeMatch (pat s : List Char) : Bool :=
  likeMatchFuel (pat.length + s.length + 1) pat s

/-- The title clause `Advertisement.title.contains(title)` (src/app.py
line 82) as SQLite executes it: SQLAlchemy emits
`title LIKE '%' || needle || '%'` with no escaping, so the match is
ASCII case-insensitive and `%`/`_` inside the query value stay active
as wildcards. -/
def likeContains (hay needle : String) : Bool :=
  likeMatch ('%' :: (needle.toList ++ ['%'])) hay.toList

/-- Character-list version of `startsWith`: the first list is an initial
segment of the second, comparing characters exactly. -/
def startsWithChars : List Char → List Char → Bool
  | [], _ => true
  | _ :: _, [] => false
  | c :: cs, d :: ds => c == d && startsWithChars cs ds

/-- The first list occurs contiguously somewhere in the second list. -/
def hasSubChars (needle : List Char) : List Char → Bool
  | [] => startsWithChars needle []
  | d :: ds => startsWithChars needle (d :: ds) || hasSubChars needle ds

/-- Modelled from the spec: the title semantics the specification
asserts — `needle` occurs in `hay` as a contiguous substring, comparing
characters exactly (hence case-sensitively).  Kept only to state how the
program's `LIKE`-based clause diverges from it; the handlers below use
`likeContains`. -/
def specTitleContains (hay needle : String) : Bool :=
  hasSubChars needle.toList hay.toList

/-- Query parameters of `GET /advertisement` (`search_ads`, src/app.py
lines 73-77): each filter is absent (`none`) when the query string does
not supply it. -/
structure SearchQuery where
  title : Option String
  author : Option String
  price_min : Option ℚ
  price_max : Option ℚ
deriving DecidableEq

/-- The clause `if title: stmt = stmt.where(Advertisement.title.contains(title))`
(src/app.py lines 81-82): active only when the query value is a truthy
(non-empty) string. -/
def whereTitle (t : Option String) (l : List Advertisement) : List Advertisement :=
  match t with
  | some t => if t = "" then l else l.filter (fun a => likeContains a.title t)
  | none => l

/-- The clause `if author: stmt = stmt.where(Advertisement.author == author)`
(src/app.py lines 83-84): an exact match, active only when the query
value is a truthy (non-empty) string. -/
def whereAuthor (v : Option String) (l : List Advertisement) : List Advertisement :=
  match v with
  | some auth => if auth = "" then l else l.filter (fun a => a.author == auth)
  | none => l

/-- The clause `if price_min is not None: stmt = stmt.where(Advertisement.price >= price_min)`
(src/app.py lines 85-86): an inclusive lower bound, active whenever the
parameter is supplied. -/
def wherePriceMin (v : Option ℚ) (l : List Advertisement) : List Advertisement :=
  match v with
  | some lo => l.filter (fun a => decide (lo ≤ a.price))
  | none => l

/-- The clause `if price_max is not None: stmt = stmt.where(Advertisement.price <= price_max)`
(src/app.py lines 87-88): an inclusive upper bound, active whenever the
parameter is supplied. -/
def wherePriceMax (v : Option ℚ) (l : List Advertisement) : List Advertisement :=
  match v with
  | some hi => l.filter (fun a => decide (a.price ≤ hi))
  | none => l

/-- Handler of `GET /advertisement` (`search_ads`, src/app.py lines
72-89): starting from all rows (`select(Advertisement)`), chain one
`where` clause per supplied filter, in the source's order. -/
def search_ads (s : Store) (q : SearchQuery) : List Advertisement :=
  wherePriceMax q.price_max
    (wherePriceMin q.price_min (whereAuthor q.author (whereTitle q.title s.ads)))

/-- Predicate of the title clause for a given query value: `true` when
the filter is absent or empty, the `LIKE`-containment test otherwise. -/
def titleMatch (t : Option String) (a : Advertisement) : Bool :=
  match t with
  | some t => if t = "" then true else likeContains a.title t
  | none => true

/-- Predicate of the author clause: `true` when the filter is absent or
empty, an exact equality test otherwise. -/
def authorMatch (v : Option String) (a : Advertisement) : Bool :=
  match v with
  | some auth => if auth = "" then true else a.author == auth
  | none => true

/-- Predicate of the lower price bound: inclusive when supplied. -/
def priceMinMatch (v : Option ℚ) (a : Advertisement) : Bool :=
  match v with
  | some lo => decide (lo ≤ a.price)
  | none => true

/-- Predicate of the upper price bound: inclusive when supplied. -/
def priceMaxMatch (v : Option ℚ) (a : Advertisement) : Bool :=
  match v with
  | some hi => decide (a.price ≤ hi)
  | none => true

/-- Sample row used to instantiate theorems with hypotheses. -/
def adA : Advertisement := ⟨1, "Bike", none, 100, "A", 0⟩

/-- Empty store whose next primary key is 1. -/
def st0 : Store := ⟨[], 1⟩

/-- Store holding just `adA`. -/
def st1 : Store := ⟨[adA], 2⟩

/-- Sample row whose title contains `"foo"` in lower case. -/
def adFoo : Advertisement := ⟨1, "xfooy", none, 5, "A", 0⟩

/-- Sample row whose title contains `"FOO"` only in upper case. -/
def adFOO : Advertisement := ⟨2, "xFOOy", none, 5, "B", 0⟩

/-- Store holding `adFoo` and `adFOO`. -/
def st2 : Store := ⟨[adFoo, adFOO], 3⟩

/-- Well-formed create body for the sample row. -/
def goodPayload : RawCreatePayload :=
  ⟨some (.str "Bike"), none, some (.num 100), some (.str "A")⟩

/-- Membership across the title clause is membership in the incoming
rows together with the title predicate. -/
theorem mem_whereTitle (t : Option String) (l : List Advertisement) (a : Advertisement) :
    a ∈ whereTitle t l ↔ a ∈ l ∧ titleMatch t a := by
  cases t with
  | none => simp [whereTitle, titleMatch]
  | some t =>
    by_cases h : t = "" <;> simp [whereTitle, titleMatch, h, List.mem_filter]

/-- Membership across the author clause is membership in the incoming
rows together with the author predicate. -/
theorem mem_whereAuthor (v : Option String) (l : List Advertisement) (a : Advertisement) :
    a ∈ whereAuthor v l ↔ a ∈ l ∧ authorMatch v a := by
  cases v with
  | none => simp [whereAuthor, authorMatch]
  | some auth =>
    by_cases h : auth = "" <;> simp [whereAuthor, authorMatch, h, List.mem_filter]

/-- Membership across the lower price clause is membership in the
incoming rows together with the lower-bound predicate. -/
theorem mem_wherePriceMin (v : Option ℚ) (l : List Advertisement) (a : Advertisement) :
    a ∈ wherePriceMin v l ↔ a ∈ l ∧ priceMinMatch v a := by
  cases v <;> simp [wherePriceMin, priceMinMatch, List.mem_filter]

/-- Membership across the upper price clause is membership in the
incoming rows together with the upper-bound predicate. -/
theorem mem_wherePriceMax (v : Option ℚ) (l : List Advertisement) (a : Advertisement) :
    a ∈ wherePriceMax v l ↔ a ∈ l ∧ priceMaxMatch v a := by
  cases v <;> simp [wherePriceMax, priceMaxMatch, List.mem_filter]

/-- Membership in the result of `search_ads` is membership in the store
together with the conjunction of the four per-filter predicates: the
chained `where` clauses of src/app.py lines 80-88 filter independently. -/
theorem mem_search_ads (s : Store) (q : SearchQuery) (a : Advertisement) :
    a ∈ search_ads s q ↔
      a ∈ s.ads ∧ titleMatch q.title a ∧ authorMatch q.author a ∧
        priceMinMatch q.price_min a ∧ priceMaxMatch q.price_max a := by
  simp only [search_ads, mem_wherePriceMax, mem_wherePriceMin, mem_whereAuthor,
    mem_whereTitle]
  tauto

/-- A search with every filter absent returns the stored rows as they are. -/
theorem search_ads_no_filters (s : Store) :
    search_ads s ⟨none, none, none, none⟩ = s.ads := rfl

/-- C1 fails on the code: the title clause compiles to SQLite `LIKE`,
which is ASCII case-insensitive, so `Search(title="foo")` on a store
holding the record titled `"xFOOy"` returns that record even though its
title does not contain `"foo"` as a case-sensitive substring (and the
spec, which the claim follows, asserts it is excluded). -/
theorem C1_title_like_case_insensitive :
    adFOO ∈ search_ads st2 ⟨some "foo", none, none, none⟩ ∧
      specTitleContains adFOO.title "foo" = false := by
  constructor <;> decide

/-- C5: for every store state and all numeric bounds `lo` and `hi`,
`Search(price_min=lo, price_max=hi)` with no other filters returns
exactly the stored records whose price `p` satisfies `lo ≤ p ≤ hi`,
both bounds inclusive, and no others. -/
theorem C5_price_range_inclusive (s : Store) (lo hi : ℚ) (a : Advertisement) :
    a ∈ search_ads s ⟨none, none, some lo, some hi⟩ ↔
      a ∈ s.ads ∧ lo ≤ a.price ∧ a.price ≤ hi := by
  rw [mem_search_ads]
  simp [titleMatch, authorMatch, priceMinMatch, priceMaxMatch]

/-- C9: a search with no filters supplied returns every stored record,
and in general a record is returned by `search_ads` iff it is stored
and satisfies the title, author, lower-bound and upper-bound filter
predicates simultaneously (logical AND across the four filters). -/
theorem C9_search_no_filters_and_conjunction (s : Store) (q : SearchQuery)
    (a : Advertisement) :
    search_ads s ⟨none, none, none, none⟩ = s.ads ∧
      (a ∈ search_ads s q ↔
        a ∈ s.ads ∧ titleMatch q.title a ∧ authorMatch q.author a ∧
          priceMinMatch q.price_min a ∧ priceMaxMatch q.price_max a) :=
  ⟨rfl, mem_search_ads s q a⟩

/-- C10: a search whose `author` (resp. `title`) query value is the
empty string behaves as if that filter were absent and returns every
stored record, because each string filter is applied only when its
value is truthy. -/
theorem C10_empty_string_filter_ignored (s : Store) :
    search_ads s ⟨none, some "", none, none⟩ = s.ads ∧
      search_ads s ⟨some "", none, none, none⟩ = s.ads := by
  constructor <;>
    simp [search_ads, whereTitle, whereAuthor, wherePriceMin, wherePriceMax]

/-- C2: for every existing record id and every update payload, the
partial update answers 200 with a record in which exactly the fields
explicitly present in the payload carry the payload's value and every
other field — including a field present in the store but absent from
the payload, and the columns `id` and `created_at` — keeps its prior
value; presence (`Option.isSome` of the payload field), not truthiness
of the value, governs whether a field is updated. -/
theorem C2_partial_update_frame (s : Store) (adId : Nat) (u : AdvertisementUpdate)
    (ad : Advertisement) (h : sessionGet s adId = some ad) :
    (update_ad s adId u).status = 200 ∧
      (update_ad s adId u).body = some
        { id := ad.id
          title := u.title.getD ad.title
          description := u.description.getD ad.description
          price := u.price.getD ad.price
          author := u.author.getD ad.author
          created_at := ad.created_at } := by
  constructor <;> simp [update_ad, h, applyUpdate]

/-- Witness for C2 at a concrete store: updating record 1 with a payload
whose only set field is `price := 50` changes only the price. -/
theorem C2_partial_update_frame_witness :
    (update_ad st1 1 ⟨none, none, some 50, none⟩).status = 200 ∧
      (update_ad st1 1 ⟨none, none, some 50, none⟩).body =
        some ⟨1, "Bike", none, 50, "A", 0⟩ := by
  have h := C2_partial_update_frame st1 1 ⟨none, none, some 50, none⟩ adA rfl
  exact h

/-- C3: for every store state and every id not present in the store,
`Get`, `PartialUpdate` and `Delete` each answer 404 and leave the store
exactly unchanged. -/
theorem C3_not_found_leaves_store_unchanged (s : Store) (adId : Nat)
    (u : AdvertisementUpdate) (h : sessionGet s adId = none) :
    get_ad s adId = ⟨404, none, s⟩ ∧ update_ad s adId u = ⟨404, none, s⟩ ∧
      delete_ad s adId = ⟨404, none, s⟩ := by
  refine ⟨?_, ?_, ?_⟩ <;> simp [get_ad, update_ad, delete_ad, h]

/-- Witness for C3 at a concrete store: id 99 is absent from `st1` and
all three operations answer 404 with the store unchanged. -/
theorem C3_not_found_leaves_store_unchanged_witness :
    get_ad st1 99 = ⟨404, none, st1⟩ ∧
      update_ad st1 99 ⟨some "X", none, none, none⟩ = ⟨404, none, st1⟩ ∧
      delete_ad st1 99 = ⟨404, none, st1⟩ :=
  C3_not_found_leaves_store_unchanged st1 99 ⟨some "X", none, none, none⟩ rfl

/-- C4: for every record id present in the store, `Delete(id)` answers
204 with no content, the found record is no longer stored, every record
with a different id survives, and a subsequent `Get(id)` answers 404. -/
theorem C4_delete_then_get_not_found (s : Store) (adId : Nat) (ad : Advertisement)
    (h : sessionGet s adId = some ad) :
    (delete_ad s adId).status = 204 ∧ (delete_ad s adId).body = none ∧
      ad ∉ (delete_ad s adId).store.ads ∧
      (∀ b ∈ s.ads, b.id ≠ adId → b ∈ (delete_ad s adId).store.ads) ∧
      get_ad (delete_ad s adId).store adId =
        ⟨404, none, (delete_ad s adId).store⟩ := by
  have h' : s.ads.find? (fun b => b.id == adId) = some ad := h
  have hid : ad.id = adId := by simpa using List.find?_some h'
  have hstore : (delete_ad s adId).store.ads = s.ads.filter (fun b => b.id != adId) := by
    simp [delete_ad, h]
  refine ⟨by simp [delete_ad, h], by simp [delete_ad, h], ?_, ?_, ?_⟩
  · rw [hstore]
    intro hmem
    have hb := (List.mem_filter.mp hmem).2
    simp [hid] at hb
  · intro b hb hbid
    rw [hstore]
    exact List.mem_filter.mpr ⟨hb, by simpa using hbid⟩
  · have hnone : sessionGet (delete_ad s adId).store adId = none := by
      show ((delete_ad s adId).store.ads).find? (fun b => b.id == adId) = none
      rw [hstore]
      refine List.find?_eq_none.mpr ?_
      intro b hb
      have hb2 := (List.mem_filter.mp hb).2
      simpa using hb2
    simp [get_ad, hnone]

/-- Witness for C4 at a concrete store: deleting record 1 from `st1`
answers 204, drops `adA`, and a subsequent get of id 1 answers 404. -/
theorem C4_delete_then_get_not_found_witness :
    (delete_ad st1 1).status = 204 ∧ adA ∉ (delete_ad st1 1).store.ads ∧
      get_ad (delete_ad st1 1).store 1 = ⟨404, none, (delete_ad st1 1).store⟩ := by
  have h := C4_delete_then_get_not_found st1 1 adA rfl
  exact ⟨h.1, h.2.2.1, h.2.2.2.2⟩

/-- C7: `id` and `created_at` are immutable after creation: a created
record's id is the one generated by the store (the create body has no
id field a client could supply) and its `created_at` is the creation
time; and no partial update, with any payload, changes the id or the
`created_at` of the record it updates (the update body has neither
field). -/
theorem C7_id_created_at_immutable :
    (∀ (s : Store) (now : Nat) (p : RawCreatePayload) (rec : Advertisement),
      (create_ad s now p).body = some rec →
        rec.id = s.nextId ∧ rec.created_at = now) ∧
    (∀ (s : Store) (adId : Nat) (u : AdvertisementUpdate) (ad ad' : Advertisement),
      sessionGet s adId = some ad → (update_ad s adId u).body = some ad' →
        ad'.id = ad.id ∧ ad'.created_at = ad.created_at) := by
  constructor
  · intro s now p rec h
    cases hv : validateCreate p with
    | none => simp [create_ad, hv] at h
    | some ad =>
      have h2 : some (Advertisement.mk s.nextId ad.title ad.description ad.price ad.author now)
          = some rec := by
        rw [← h]; simp [create_ad, hv]
      cases h2
      exact ⟨rfl, rfl⟩
  · intro s adId u ad ad' h h'
    have h2 : some (applyUpdate ad u) = some ad' := by
      rw [← h']; simp [update_ad, h]
    cases h2
    exact ⟨rfl, rfl⟩

/-- Witness for C7 at a concrete store: the record created in `st0` has
the generated id 1 and the creation time 7, and a price-only update of
`adA` keeps its id and `created_at`. -/
theorem C7_id_created_at_immutable_witness :
    ((Advertisement.mk 1 "Bike" none 100 "A" 7).id = st0.nextId ∧
      (Advertisement.mk 1 "Bike" none 100 "A" 7).created_at = 7) ∧
    ((applyUpdate adA ⟨none, none, some 50, none⟩).id = adA.id ∧
      (applyUpdate adA ⟨none, none, some 50, none⟩).created_at = adA.created_at) := by
  constructor
  · exact C7_id_created_at_immutable.1 st0 7 goodPayload _ rfl
  · exact C7_id_created_at_immutable.2 st1 1 ⟨none, none, some 50, none⟩ adA _ rfl rfl

/-- C8: creating a record from a valid body and immediately getting the
returned id answers 200 with a record whose `title`, `description`,
`price` and `author` equal the values supplied at creation.  The store
invariant that no stored row already carries the next generated id is a
hypothesis. -/
theorem C8_create_then_get_round_trip (s : Store) (now : Nat) (p : RawCreatePayload)
    (ad : AdvertisementCreate) (hv : validateCreate p = some ad)
    (hfresh : ∀ b ∈ s.ads, b.id ≠ s.nextId) :
    ∃ rec, (create_ad s now p).body = some rec ∧
      get_ad (create_ad s now p).store rec.id =
        ⟨200, some rec, (create_ad s now p).store⟩ ∧
      rec.title = ad.title ∧ rec.description = ad.description ∧
      rec.price = ad.price ∧ rec.author = ad.author := by
  refine ⟨⟨s.nextId, ad.title, ad.description, ad.price, ad.author, now⟩,
    by simp [create_ad, hv], ?_, rfl, rfl, rfl, rfl⟩
  have hstore : (create_ad s now p).store.ads =
      s.ads ++ [⟨s.nextId, ad.title, ad.description, ad.price, ad.author, now⟩] := by
    simp [create_ad, hv]
  have hget : sessionGet (create_ad s now p).store s.nextId =
      some ⟨s.nextId, ad.title, ad.description, ad.price, ad.author, now⟩ := by
    show ((create_ad s now p).store.ads).find? (fun b => b.id == s.nextId) = _
    rw [hstore, List.find?_append]
    have h1 : s.ads.find? (fun b => b.id == s.nextId) = none :=
      List.find?_eq_none.mpr (fun b hb => by simpa using hfresh b hb)
    rw [h1]
    simp
  simp [get_ad, hget]

/-- Witness for C8 at a concrete store: creating from `goodPayload` in
the empty store and getting id 1 returns the stored record with the
supplied field values. -/
theorem C8_create_then_get_round_trip_witness :
    (create_ad st0 7 goodPayload).body = some ⟨1, "Bike", none, 100, "A", 7⟩ ∧
      get_ad (create_ad st0 7 goodPayload).store 1 =
        ⟨200, some ⟨1, "Bike", none, 100, "A", 7⟩, (create_ad st0 7 goodPayload).store⟩ := by
  obtain ⟨rec, h1, h2, h3, h4, h5, h6⟩ :=
    C8_create_then_get_round_trip st0 7 goodPayload ⟨"Bike", none, 100, "A"⟩ rfl
      (by simp [st0])
  have hb : (create_ad st0 7 goodPayload).body =
      some (Advertisement.mk 1 "Bike" none 100 "A" 7) := rfl
  rw [hb] at h1
  cases h1
  exact ⟨hb, h2⟩
